import Mathlib

/-!
Verification of the interview dialogue orchestrator of
`Part3/interviewer.py` (class `InterviewerBot` and its module-level
adapters `chat_interview_logic` / the `api.py` chat endpoint).

The Python code is embedded shallowly:

* Python strings are Lean `String`s; the string methods the source uses
  (`strip`, `replace`, `in`, `startswith`) are reimplemented below as
  structurally recursive functions on `List Char` with Python semantics
  (left-to-right, non-overlapping single pass for `replace`), so that every
  definition evaluates inside the kernel.
* The mutable `InterviewerBot` instance becomes an explicit state record
  `InterviewerBot`; each Python method becomes a function from the old state
  to the new state plus its return value.
* The external Text Generation collaborator (`self.llm.invoke`) is modelled
  as an oracle `Nat → Except String String` giving the outcome of the n-th
  generation call of the session: `.ok s` is a reply with content `s`,
  `.error e` is a raised exception with message `e`.  The state field
  `llm_calls` counts the generation calls made so far.  The prompt that the
  source builds for each call (system instruction, windowed memory, action
  guide) is still computed and passed, but the oracle is free to ignore it,
  which makes the model at least as nondeterministic as the real
  collaborator.
* `ConversationBufferWindowMemory` is modelled by the list `memory` of
  messages appended to it; the window (`k = 8`) only affects what is shown
  to the oracle and is therefore immaterial here.
-/

set_option linter.unusedVariables false

/-! ## Python string primitives -/

/-- Characters removed by Python `str.strip()` (ASCII whitespace). -/
def isStripChar (c : Char) : Bool :=
  c == ' ' || c == '\t' || c == '\n' || c == '\r' || c == '\x0b' || c == '\x0c'

/-- `str.strip()` on the character list. -/
def trimChars (l : List Char) : List Char :=
  ((l.dropWhile isStripChar).reverse.dropWhile isStripChar).reverse

/-- Python `str.strip()`. -/
def pyStrip (s : String) : String :=
  String.mk (trimChars s.data)

/-- Python `sub in s` on character lists. -/
def containsSub (pat : List Char) : List Char → Bool
  | [] => pat.isEmpty
  | c :: rest => pat.isPrefixOf (c :: rest) || containsSub pat rest

/-- Python `sub in s`. -/
def pyContains (s sub : String) : Bool :=
  containsSub sub.data s.data

/-- Python `s.startswith(p)`. -/
def pyStartsWith (s p : String) : Bool :=
  p.data.isPrefixOf s.data

/-- One fuel-indexed pass of Python `str.replace(old, new)`: scan left to
right, replacing non-overlapping occurrences.  The fuel (instantiated with
the length of the scanned list, which each step strictly decreases when the
pattern is non-empty) keeps the recursion structural. -/
def replaceLoop (pat new : List Char) : Nat → List Char → List Char
  | _, [] => []
  | 0, l => l
  | n + 1, c :: rest =>
    if pat.isPrefixOf (c :: rest) then
      new ++ replaceLoop pat new n (List.drop pat.length (c :: rest))
    else
      c :: replaceLoop pat new n rest

/-- Python `s.replace(old, new)`. -/
def pyReplace (s old new : String) : String :=
  String.mk (replaceLoop old.data new.data s.data.length s.data)

/-! ## Shared constants (`Part3/interviewer.py`, lines 29-47) -/

def SENTINEL_END_PHRASE : String := "<<END_INTERVIEW>>"

def TERMINATION_TAG : String := "PROTOCOL_TERMINATE_UNPROFESSIONAL"

def WARNING_TAG : String := "PROTOCOL_WARNING_UNPROFESSIONAL"

def PIVOT_TAG : String := "PROTOCOL_PIVOT_TO_NEW_TOPIC"

def SOFT_CLOSE_TAG : String := "PROTOCOL_INITIATE_SOFT_CLOSE"

def MAX_WARNINGS : Nat := 1

def MAX_PRIMARY_QUESTIONS : Nat := 5

def MAX_ELABORATIONS : Nat := 1

def MEMORY_WINDOW : Nat := 8

def REPETITION_PHRASES : List String :=
  ["To ensure clarity, I will repeat the question:",
   "Let me clarify that point for you:",
   "I'm happy to rephrase the question:"]

/-! ## Data model -/

/-- One entry of `transcript_history` (a Python dict
`{"type": ..., "content": ...}`; `type` is `"human"`, `"ai"` or
`"PROTOCOL"`). -/
structure TranscriptEntry where
  type : String
  content : String
deriving DecidableEq, Repr

/-- Outcome of the n-th `self.llm.invoke` call of a session. -/
abbrev Oracle := Nat → Except String String

/-- The mutable state of one `InterviewerBot` instance. -/
structure InterviewerBot where
  job_description : String
  resume_content : String
  job_level : String
  candidate_name : String
  warning_count : Nat
  primary_question_count : Nat
  elaboration_count : Nat
  is_finished : Bool
  is_in_soft_close : Bool
  transcript_history : List TranscriptEntry
  memory : List TranscriptEntry
  llm_calls : Nat
deriving DecidableEq, Repr

/-- Result of `process_turn` (Python returns `(reply, is_finished)` and
mutates `self`, which is returned here as `bot`). -/
structure TurnResult where
  reply : String
  is_finished : Bool
  bot : InterviewerBot
deriving DecidableEq, Repr

/-- The grading context dict built by `get_context_for_grading`. -/
structure GradingContext where
  timestamp : Nat
  job_level : String
  candidate_name : String
  job_description : String
  resume_content : String
  transcript : List TranscriptEntry
deriving DecidableEq, Repr

/-- Result of `chat_interview_logic`. -/
structure ChatResult where
  ai_response : String
  is_finished : Bool
  final_context : Option GradingContext
  bot : InterviewerBot
deriving DecidableEq, Repr

/-! ## InterviewerBot methods -/

/-- `InterviewerBot.__init__`. -/
def mk_interviewer (job_desc_str resume_content_str job_level candidate_name : String) : InterviewerBot :=
  { job_description := job_desc_str
    resume_content := resume_content_str
    job_level := job_level
    candidate_name := candidate_name
    warning_count := 0
    primary_question_count := 0
    elaboration_count := 0
    is_finished := false
    is_in_soft_close := false
    transcript_history := []
    memory := []
    llm_calls := 0 }

/-- `InterviewerBot.init_session`: seeds transcript and memory with the
opening greeting and returns it. -/
def InterviewerBot.init_session (bot : InterviewerBot) : String × InterviewerBot :=
  let initial_greeting :=
    "Hello " ++ bot.candidate_name ++
      ", thank you for joining me today. We have a short time, so let's jump right into the technical discussion. How are you doing?"
  (initial_greeting,
   { bot with
     transcript_history := bot.transcript_history ++ [⟨"ai", initial_greeting⟩]
     memory := bot.memory ++ [⟨"ai", initial_greeting⟩] })

/-- `InterviewerBot._invoke_llm_for_response`: one generation call.  A
successful reply is returned stripped; a raised exception is caught and an
`[LLM_ERROR]` message is returned instead (the source catches it here and
does not re-raise). -/
def InterviewerBot.invoke_llm_for_response (bot : InterviewerBot) (oracle : Oracle) (action_guide : String) : String × InterviewerBot :=
  match oracle bot.llm_calls with
  | .ok content => (pyStrip content, { bot with llm_calls := bot.llm_calls + 1 })
  | .error e =>
    ("[LLM_ERROR] The AI model failed to respond: " ++ e,
     { bot with llm_calls := bot.llm_calls + 1 })

/-- Fall-through tail of `InterviewerBot._handle_protocol_response`
(lines 170-181): sentinel check, then ordinary append.  Factored out
because the warning branch re-enters it with the re-generated text. -/
def InterviewerBot.handle_sentinel_or_plain (bot : InterviewerBot) (bot_text : String) : String × InterviewerBot :=
  if pyContains bot_text SENTINEL_END_PHRASE then
    let final_message := pyStrip (pyReplace bot_text SENTINEL_END_PHRASE "")
    (final_message,
     { bot with
       is_finished := true
       transcript_history := bot.transcript_history ++
         [⟨"PROTOCOL", SENTINEL_END_PHRASE⟩, ⟨"ai", final_message⟩] })
  else
    (bot_text,
     { bot with
       transcript_history := bot.transcript_history ++ [⟨"ai", bot_text⟩]
       memory := bot.memory ++ [⟨"ai", bot_text⟩] })

/-- `InterviewerBot._handle_protocol_response`. -/
def InterviewerBot.handle_protocol_response (bot : InterviewerBot) (oracle : Oracle) (bot_text : String) : String × InterviewerBot :=
  if bot_text == WARNING_TAG then
    let bot1 : InterviewerBot :=
      { bot with
        warning_count := bot.warning_count + 1
        transcript_history := bot.transcript_history ++ [⟨"PROTOCOL", WARNING_TAG⟩] }
    if bot1.warning_count > MAX_WARNINGS then
      let final_message :=
        "I appreciate your time, but given the lack of professional engagement, I must conclude this interview now."
      (final_message,
       { bot1 with
         is_finished := true
         transcript_history := bot1.transcript_history ++
           [⟨"PROTOCOL", TERMINATION_TAG⟩, ⟨"ai", final_message⟩] })
    else
      let warning_message :=
        "I noticed your last response was unprofessional. Please maintain a professional demeanor. I'll re-ask the question."
      let bot2 : InterviewerBot :=
        { bot1 with
          transcript_history := bot1.transcript_history ++ [⟨"ai", warning_message⟩]
          memory := bot1.memory ++ [⟨"ai", warning_message⟩] }
      let re_ask_message :=
        "The candidate has been warned. Acknowledge this and output the *exact* last technical question (or follow-up) asked before the candidate's last message. DO NOT PIVOT. DO NOT REPEAT THE WARNING MESSAGE."
      let inv := bot2.invoke_llm_for_response oracle re_ask_message
      inv.2.handle_sentinel_or_plain inv.1
  else
    bot.handle_sentinel_or_plain bot_text

/-- The action guide chosen when `primary_question_count == 0`. -/
def first_topic_guide : String :=
  "Analyze the candidate's LATEST message. If abusive/profane, output the protocol tag. Otherwise, acknowledge the greeting, then transition immediately to the first primary technical question (Question 1) based on the rules."

/-- The follow-up action guide (`n` is the interpolated elaboration count). -/
def follow_up_guide (n : Nat) : String :=
  "The candidate has responded. Based on the rules: If they asked for repetition/clarification, use one of the specific starter phrases and repeat the last question. Otherwise, you MUST now ask the single required follow-up question (Elaboration Count: " ++
    toString n ++ "). Check for abuse and output the warning tag if detected."

/-- The pivot action guide (`n` is the interpolated next question number). -/
def pivot_new_topic_guide (n : Nat) : String :=
  "The current topic is complete (Max Elaborations: " ++ toString MAX_ELABORATIONS ++
    " reached). Acknowledge the candidate's last answer *briefly*, then gracefully pivot and ask a NEW primary technical question (Question " ++
    toString n ++ ") based on the Resume/JD. Check for abuse and output the warning tag if detected."

/-- The `if/elif/else` action-guide selection of `process_turn`
(lines 197-202). -/
def InterviewerBot.action_guide_for (bot : InterviewerBot) : String :=
  if bot.primary_question_count == 0 then
    first_topic_guide
  else if bot.elaboration_count < MAX_ELABORATIONS then
    follow_up_guide (bot.elaboration_count + 1)
  else
    pivot_new_topic_guide (bot.primary_question_count + 1)

/-- `InterviewerBot._initiate_soft_close`. -/
def InterviewerBot.initiate_soft_close (bot : InterviewerBot) (oracle : Oracle) : TurnResult :=
  let bot0 : InterviewerBot := { bot with is_in_soft_close := true }
  let soft_close_prompt :=
    "The technical interview section is complete. Output ONLY the final soft close question (Rule 2: 'Do you have any final questions for me...')."
  let inv := bot0.invoke_llm_for_response oracle soft_close_prompt
  let bot_text := inv.1
  let bot1 := inv.2
  ⟨bot_text, false,
   { bot1 with
     transcript_history := bot1.transcript_history ++
       [⟨"PROTOCOL", SOFT_CLOSE_TAG⟩, ⟨"ai", bot_text⟩]
     memory := bot1.memory ++ [⟨"ai", bot_text⟩] }⟩

/-- `InterviewerBot._continue_soft_close`. -/
def InterviewerBot.continue_soft_close (bot : InterviewerBot) (oracle : Oracle) (candidate_reply : String) : TurnResult :=
  let final_signal_prompt :=
    "The candidate has replied to your soft close question. Reply conversationally to their final statement/question, and then immediately output the exact, standalone phrase: " ++
      SENTINEL_END_PHRASE ++ ". DO NOT ASK NEW QUESTIONS OR FOLLOW-UPS."
  let inv := bot.invoke_llm_for_response oracle final_signal_prompt
  let bot_text := inv.1
  let bot1 := inv.2
  if pyContains bot_text SENTINEL_END_PHRASE then
    let final_message := pyStrip (pyReplace bot_text SENTINEL_END_PHRASE "")
    ⟨final_message, true,
     { bot1 with
       is_finished := true
       transcript_history := bot1.transcript_history ++
         [⟨"PROTOCOL", SENTINEL_END_PHRASE⟩, ⟨"ai", final_message⟩] }⟩
  else
    ⟨bot_text, false,
     { bot1 with
       transcript_history := bot1.transcript_history ++ [⟨"ai", bot_text⟩]
       memory := bot1.memory ++ [⟨"ai", bot_text⟩] }⟩

/-- `InterviewerBot.process_turn`. -/
def InterviewerBot.process_turn (bot : InterviewerBot) (oracle : Oracle) (candidate_reply : String) : TurnResult :=
  let bot1 : InterviewerBot :=
    { bot with
      transcript_history := bot.transcript_history ++ [⟨"human", candidate_reply⟩]
      memory := bot.memory ++ [⟨"human", candidate_reply⟩] }
  if bot1.is_in_soft_close then
    bot1.continue_soft_close oracle candidate_reply
  else if bot1.primary_question_count ≥ MAX_PRIMARY_QUESTIONS then
    bot1.initiate_soft_close oracle
  else
    let action_guide := bot1.action_guide_for
    let inv := bot1.invoke_llm_for_response oracle action_guide
    let hpr := inv.2.handle_protocol_response oracle inv.1
    let final_bot_text := hpr.1
    let bot2 := hpr.2
    if bot2.is_finished then
      ⟨final_bot_text, true, bot2⟩
    else
      let is_repetition :=
        REPETITION_PHRASES.any (fun phrase => pyStartsWith final_bot_text phrase)
      let bot3 : InterviewerBot :=
        if !is_repetition then
          if bot2.primary_question_count == 0 then
            { bot2 with primary_question_count := 1 }
          else if bot2.elaboration_count ≥ MAX_ELABORATIONS then
            { bot2 with
              primary_question_count := bot2.primary_question_count + 1
              elaboration_count := 0
              transcript_history := bot2.transcript_history ++ [⟨"PROTOCOL", PIVOT_TAG⟩] }
          else
            { bot2 with elaboration_count := bot2.elaboration_count + 1 }
        else
          bot2
      ⟨final_bot_text, bot3.is_finished, bot3⟩

/-- `InterviewerBot.get_context_for_grading`.  `time.time()` is modelled by
the input `now`; saving the transcript file is an external side effect the
source wraps in its own `try/except`, so it never changes the returned
value. -/
def InterviewerBot.get_context_for_grading (bot : InterviewerBot) (now : Nat) : GradingContext :=
  { timestamp := now
    job_level := bot.job_level
    candidate_name := bot.candidate_name
    job_description := bot.job_description
    resume_content := bot.resume_content
    transcript := bot.transcript_history }

/-! ## Module-level adapters (`chat_interview_logic`) and the api layer -/

/-- Body of `chat_interview_logic` given the outcome of the protected
`process_turn` call.  The source wraps that call in `try/except`, so a
raised exception is an input here: `.error (e, bot)` carries the exception
message and the (possibly partially mutated) instance, `.ok r` carries a
normal return. -/
def chat_interview_logic_core (now : Nat) (turn_outcome : Except (String × InterviewerBot) TurnResult) : ChatResult :=
  let step :=
    match turn_outcome with
    | .ok r => (r.reply, r.is_finished, r.bot)
    | .error (e, bot) => ("Internal chat processing failure: " ++ e, true, bot)
  let ai_response := step.1
  let is_finished := step.2.1
  let bot := step.2.2
  let final_context : Option GradingContext :=
    if is_finished then some (bot.get_context_for_grading now) else none
  ⟨ai_response, is_finished, final_context, bot⟩

/-- `chat_interview_logic` on the path where `process_turn` returns
normally. -/
def chat_interview_logic (oracle : Oracle) (now : Nat) (bot : InterviewerBot) (candidate_reply : String) : ChatResult :=
  chat_interview_logic_core now (.ok (bot.process_turn oracle candidate_reply))

/-- The api-level session store `INTERVIEW_SESSIONS` (a dict keyed by
session id). -/
abbrev SessionMap := List (String × InterviewerBot)

/-- `del INTERVIEW_SESSIONS[session_id]`. -/
def eraseSession (session_id : String) : SessionMap → SessionMap
  | [] => []
  | (k, v) :: rest =>
    if k == session_id then eraseSession session_id rest
    else (k, v) :: eraseSession session_id rest

/-- `INTERVIEW_SESSIONS[session_id] = bot` for an existing key (the Python
instance is mutated in place, so the stored entry is the updated state). -/
def updateSession (session_id : String) (bot : InterviewerBot) : SessionMap → SessionMap
  | [] => []
  | (k, v) :: rest =>
    if k == session_id then (k, bot) :: updateSession session_id bot rest
    else (k, v) :: updateSession session_id bot rest

/-- The `/interview/chat` endpoint `continue_interview` of `api.py`:
unknown ids are rejected with a 404 error; a finished turn deletes the
session from the store. -/
def continue_interview (oracle : Oracle) (now : Nat) (sessions : SessionMap) (session_id candidate_reply : String) :
    Except String (String × Bool × Option GradingContext) × SessionMap :=
  match sessions.lookup session_id with
  | none => (.error "Interview session not found or has expired.", sessions)
  | some bot =>
    let r := chat_interview_logic oracle now bot candidate_reply
    if r.is_finished then
      (.ok (r.ai_response, r.is_finished, r.final_context), eraseSession session_id sessions)
    else
      (.ok (r.ai_response, r.is_finished, r.final_context), updateSession session_id r.bot sessions)

/-- Iterate `process_turn` over a list of candidate replies, starting from
the result of a previous turn. -/
def run_turns (oracle : Oracle) : TurnResult → List String → TurnResult
  | r, [] => r
  | r, c :: cs => run_turns oracle (r.bot.process_turn oracle c) cs

/-! ## Field-effect lemmas for the state-machine steps -/

/-- The state effect of a generation call is deterministic: only the call
counter advances (success and failure branches update the state alike). -/
theorem invoke_state_eq (bot : InterviewerBot) (oracle : Oracle) (g : String) :
    (bot.invoke_llm_for_response oracle g).2 = { bot with llm_calls := bot.llm_calls + 1 } := by
  unfold InterviewerBot.invoke_llm_for_response
  cases oracle bot.llm_calls <;> rfl

theorem hsp_pqc (bot : InterviewerBot) (t : String) :
    (bot.handle_sentinel_or_plain t).2.primary_question_count = bot.primary_question_count := by
  unfold InterviewerBot.handle_sentinel_or_plain
  split <;> rfl

theorem hsp_elab_count (bot : InterviewerBot) (t : String) :
    (bot.handle_sentinel_or_plain t).2.elaboration_count = bot.elaboration_count := by
  unfold InterviewerBot.handle_sentinel_or_plain
  split <;> rfl

theorem hsp_warn (bot : InterviewerBot) (t : String) :
    (bot.handle_sentinel_or_plain t).2.warning_count = bot.warning_count := by
  unfold InterviewerBot.handle_sentinel_or_plain
  split <;> rfl

theorem hsp_soft (bot : InterviewerBot) (t : String) :
    (bot.handle_sentinel_or_plain t).2.is_in_soft_close = bot.is_in_soft_close := by
  unfold InterviewerBot.handle_sentinel_or_plain
  split <;> rfl

theorem hsp_fin (bot : InterviewerBot) (t : String) :
    (bot.handle_sentinel_or_plain t).2.is_finished =
      (bot.is_finished || pyContains t SENTINEL_END_PHRASE) := by
  unfold InterviewerBot.handle_sentinel_or_plain
  split <;> rename_i h <;> simp [h]

theorem hsp_reply (bot : InterviewerBot) (t : String) :
    (bot.handle_sentinel_or_plain t).1 =
      if pyContains t SENTINEL_END_PHRASE then pyStrip (pyReplace t SENTINEL_END_PHRASE "")
      else t := by
  unfold InterviewerBot.handle_sentinel_or_plain
  split <;> rename_i h <;> simp [h]

theorem hsp_transcript (bot : InterviewerBot) (t : String) :
    ∃ rest, (bot.handle_sentinel_or_plain t).2.transcript_history =
      bot.transcript_history ++ rest := by
  unfold InterviewerBot.handle_sentinel_or_plain
  split <;> exact ⟨_, rfl⟩

theorem hpr_pqc (bot : InterviewerBot) (oracle : Oracle) (t : String) :
    (bot.handle_protocol_response oracle t).2.primary_question_count = bot.primary_question_count := by
  unfold InterviewerBot.handle_protocol_response
  split
  · dsimp only
    split
    · rfl
    · rw [hsp_pqc, invoke_state_eq]
  · rw [hsp_pqc]

theorem hpr_elab_count (bot : InterviewerBot) (oracle : Oracle) (t : String) :
    (bot.handle_protocol_response oracle t).2.elaboration_count = bot.elaboration_count := by
  unfold InterviewerBot.handle_protocol_response
  split
  · dsimp only
    split
    · rfl
    · rw [hsp_elab_count, invoke_state_eq]
  · rw [hsp_elab_count]

theorem hpr_soft (bot : InterviewerBot) (oracle : Oracle) (t : String) :
    (bot.handle_protocol_response oracle t).2.is_in_soft_close = bot.is_in_soft_close := by
  unfold InterviewerBot.handle_protocol_response
  split
  · dsimp only
    split
    · rfl
    · rw [hsp_soft, invoke_state_eq]
  · rw [hsp_soft]

theorem hpr_warn (bot : InterviewerBot) (oracle : Oracle) (t : String) :
    (bot.handle_protocol_response oracle t).2.warning_count =
      (if t == WARNING_TAG then bot.warning_count + 1 else bot.warning_count) := by
  unfold InterviewerBot.handle_protocol_response
  split <;> rename_i h
  · dsimp only
    split
    · rfl
    · rw [hsp_warn, invoke_state_eq]
  · rw [hsp_warn]

theorem hpr_fin_mono (bot : InterviewerBot) (oracle : Oracle) (t : String)
    (hf : bot.is_finished = true) :
    (bot.handle_protocol_response oracle t).2.is_finished = true := by
  unfold InterviewerBot.handle_protocol_response
  split
  · dsimp only
    split
    · rfl
    · rw [hsp_fin, invoke_state_eq]
      simp [hf]
  · rw [hsp_fin]
    simp [hf]

theorem hpr_fin_term (bot : InterviewerBot) (oracle : Oracle) (t : String)
    (h : (t == WARNING_TAG) = true) (h2 : bot.warning_count + 1 > MAX_WARNINGS) :
    (bot.handle_protocol_response oracle t).2.is_finished = true := by
  unfold InterviewerBot.handle_protocol_response
  rw [if_pos h]
  dsimp only
  split <;> rename_i h3
  · rfl
  · exact absurd h2 h3

theorem hpr_transcript (bot : InterviewerBot) (oracle : Oracle) (t : String) :
    ∃ rest, (bot.handle_protocol_response oracle t).2.transcript_history =
      bot.transcript_history ++ rest := by
  unfold InterviewerBot.handle_protocol_response
  split
  · dsimp only
    split
    · exact ⟨_, List.append_assoc _ _ _⟩
    · obtain ⟨rest, hres⟩ := hsp_transcript
        ((InterviewerBot.invoke_llm_for_response _ oracle _).2)
        ((InterviewerBot.invoke_llm_for_response _ oracle _).1)
      rw [hres, invoke_state_eq]
      dsimp only
      refine ⟨[⟨"PROTOCOL", WARNING_TAG⟩] ++
        ([⟨"ai", "I noticed your last response was unprofessional. Please maintain a professional demeanor. I'll re-ask the question."⟩] ++ rest), ?_⟩
      simp
  · exact hsp_transcript bot t

theorem csc_counts (bot : InterviewerBot) (oracle : Oracle) (r : String) :
    (bot.continue_soft_close oracle r).bot.primary_question_count = bot.primary_question_count ∧
    (bot.continue_soft_close oracle r).bot.elaboration_count = bot.elaboration_count ∧
    (bot.continue_soft_close oracle r).bot.warning_count = bot.warning_count ∧
    (bot.continue_soft_close oracle r).bot.is_in_soft_close = bot.is_in_soft_close := by
  unfold InterviewerBot.continue_soft_close
  dsimp only
  split <;> simp [invoke_state_eq]

theorem csc_transcript (bot : InterviewerBot) (oracle : Oracle) (r : String) :
    ∃ rest, (bot.continue_soft_close oracle r).bot.transcript_history =
      bot.transcript_history ++ rest := by
  unfold InterviewerBot.continue_soft_close
  dsimp only
  split <;> rw [invoke_state_eq] <;> exact ⟨_, rfl⟩

theorem csc_sentinel (bot : InterviewerBot) (oracle : Oracle) (r t : String)
    (ho : oracle bot.llm_calls = Except.ok t)
    (hs : pyContains (pyStrip t) SENTINEL_END_PHRASE = true) :
    (bot.continue_soft_close oracle r).is_finished = true ∧
    (bot.continue_soft_close oracle r).bot.is_finished = true ∧
    (bot.continue_soft_close oracle r).reply =
      pyStrip (pyReplace (pyStrip t) SENTINEL_END_PHRASE "") := by
  unfold InterviewerBot.continue_soft_close InterviewerBot.invoke_llm_for_response
  rw [ho]
  simp [hs]

theorem csc_no_sentinel (bot : InterviewerBot) (oracle : Oracle) (r t : String)
    (ho : oracle bot.llm_calls = Except.ok t)
    (hs : pyContains (pyStrip t) SENTINEL_END_PHRASE = false) :
    (bot.continue_soft_close oracle r).is_finished = false ∧
    (bot.continue_soft_close oracle r).reply = pyStrip t ∧
    (bot.continue_soft_close oracle r).bot.is_finished = bot.is_finished := by
  unfold InterviewerBot.continue_soft_close InterviewerBot.invoke_llm_for_response
  rw [ho]
  simp [hs]

theorem isc_state (bot : InterviewerBot) (oracle : Oracle) :
    (bot.initiate_soft_close oracle).bot.primary_question_count = bot.primary_question_count ∧
    (bot.initiate_soft_close oracle).bot.elaboration_count = bot.elaboration_count ∧
    (bot.initiate_soft_close oracle).bot.warning_count = bot.warning_count ∧
    (bot.initiate_soft_close oracle).bot.is_finished = bot.is_finished ∧
    (bot.initiate_soft_close oracle).bot.is_in_soft_close = true ∧
    (bot.initiate_soft_close oracle).is_finished = false := by
  unfold InterviewerBot.initiate_soft_close
  dsimp only
  simp [invoke_state_eq]

theorem isc_transcript (bot : InterviewerBot) (oracle : Oracle) :
    ∃ rest, (bot.initiate_soft_close oracle).bot.transcript_history =
      bot.transcript_history ++ rest := by
  unfold InterviewerBot.initiate_soft_close
  dsimp only
  rw [invoke_state_eq]
  exact ⟨_, rfl⟩

theorem isc_reply (bot : InterviewerBot) (oracle : Oracle) (t : String)
    (ho : oracle bot.llm_calls = Except.ok t) :
    (bot.initiate_soft_close oracle).reply = pyStrip t := by
  unfold InterviewerBot.initiate_soft_close InterviewerBot.invoke_llm_for_response
  dsimp only
  rw [ho]

/-- On the soft-close continuation branch of `process_turn` (step 2 of the
loop), the whole turn is `_continue_soft_close` applied to the state whose
transcript and memory already hold the candidate reply. -/
theorem pt_soft_eq (bot : InterviewerBot) (oracle : Oracle) (r : String)
    (h : bot.is_in_soft_close = true) :
    bot.process_turn oracle r =
      InterviewerBot.continue_soft_close
        { bot with
          transcript_history := bot.transcript_history ++ [⟨"human", r⟩]
          memory := bot.memory ++ [⟨"human", r⟩] } oracle r := by
  unfold InterviewerBot.process_turn
  dsimp only
  rw [if_pos h]

/-- On the pacing-override branch of `process_turn` (step 3 of the loop),
the whole turn is `_initiate_soft_close`. -/
theorem pt_override_eq (bot : InterviewerBot) (oracle : Oracle) (r : String)
    (h : bot.is_in_soft_close = false)
    (h2 : bot.primary_question_count ≥ MAX_PRIMARY_QUESTIONS) :
    bot.process_turn oracle r =
      InterviewerBot.initiate_soft_close
        { bot with
          transcript_history := bot.transcript_history ++ [⟨"human", r⟩]
          memory := bot.memory ++ [⟨"human", r⟩] } oracle := by
  unfold InterviewerBot.process_turn
  dsimp only
  rw [h]
  simp [h2]

theorem hpr_warn_le (X : InterviewerBot) (oracle : Oracle) (t : String)
    (hnf : (X.handle_protocol_response oracle t).2.is_finished = false)
    (hX : X.warning_count ≤ MAX_WARNINGS) :
    (X.handle_protocol_response oracle t).2.warning_count ≤ MAX_WARNINGS := by
  rw [hpr_warn]
  split <;> rename_i htag
  · by_cases hgt : X.warning_count + 1 > MAX_WARNINGS
    · rw [hpr_fin_term X oracle t htag hgt] at hnf
      simp at hnf
    · omega
  · exact hX

/-- One `process_turn` step on an unfinished session preserves the counter
invariants of the data model. -/
theorem step_preserves_invariant (bot : InterviewerBot) (oracle : Oracle) (r : String)
    (hfin : bot.is_finished = false)
    (hw : bot.warning_count ≤ MAX_WARNINGS + 1)
    (hwf : bot.warning_count = MAX_WARNINGS + 1 → bot.is_finished = true)
    (hp : bot.primary_question_count ≤ MAX_PRIMARY_QUESTIONS)
    (he : bot.elaboration_count ≤ MAX_ELABORATIONS) :
    (bot.process_turn oracle r).bot.warning_count ≤ MAX_WARNINGS + 1 ∧
    ((bot.process_turn oracle r).bot.warning_count = MAX_WARNINGS + 1 →
      (bot.process_turn oracle r).bot.is_finished = true) ∧
    (bot.process_turn oracle r).bot.primary_question_count ≤ MAX_PRIMARY_QUESTIONS ∧
    (bot.process_turn oracle r).bot.elaboration_count ≤ MAX_ELABORATIONS := by
  have hw1 : bot.warning_count ≤ MAX_WARNINGS := by
    rcases Nat.lt_or_ge bot.warning_count (MAX_WARNINGS + 1) with h | h
    · omega
    · have heq : bot.warning_count = MAX_WARNINGS + 1 := by omega
      simp [hwf heq] at hfin
  cases hsoft : bot.is_in_soft_close with
  | true =>
    rw [pt_soft_eq bot oracle r hsoft]
    rcases csc_counts
      { bot with
        transcript_history := bot.transcript_history ++ [⟨"human", r⟩]
        memory := bot.memory ++ [⟨"human", r⟩] } oracle r with ⟨h1, h2, h3, h4⟩
    rw [h1, h2, h3]
    try dsimp only
    exact ⟨by omega, fun heq => absurd heq (by omega), hp, he⟩
  | false =>
    rcases Nat.lt_or_ge bot.primary_question_count MAX_PRIMARY_QUESTIONS with hover | hover
    · -- ordinary pacing path
      unfold InterviewerBot.process_turn
      try dsimp only
      rw [if_neg (by simp [hsoft]), if_neg (by omega)]
      split <;> rename_i hfin2
      · -- the protocol handling finished the session
        try dsimp only
        refine ⟨?_, fun _ => hfin2, ?_, ?_⟩
        · simp only [hpr_warn, invoke_state_eq]
          try dsimp only
          split <;> omega
        · simp only [hpr_pqc, invoke_state_eq]
          try dsimp only
          exact hp
        · simp only [hpr_elab_count, invoke_state_eq]
          try dsimp only
          exact he
      · -- the session stayed open: counter update block
        rw [Bool.not_eq_true] at hfin2
        have hwle := hpr_warn_le _ oracle _ hfin2 (by rw [invoke_state_eq]; exact hw1)
        try dsimp only
        split <;> rename_i hrep
        · split <;> rename_i hq0
          · -- FIRST_TOPIC: primary_question_count := 1
            try dsimp only
            refine ⟨by omega, fun heq => absurd heq (by omega), by decide, ?_⟩
            simp only [hpr_elab_count, invoke_state_eq]
            try dsimp only
            exact he
          · split <;> rename_i hel
            · -- PIVOT_NEW_TOPIC: primary_question_count + 1, elaboration_count := 0
              try dsimp only
              refine ⟨by omega, fun heq => absurd heq (by omega), ?_, by decide⟩
              simp only [hpr_pqc, invoke_state_eq]
              try dsimp only
              omega
            · -- ASK_FOLLOW_UP: elaboration_count + 1
              try dsimp only
              refine ⟨by omega, fun heq => absurd heq (by omega), ?_, ?_⟩
              · simp only [hpr_pqc, invoke_state_eq]
                try dsimp only
                exact hp
              · simp only [hpr_elab_count, invoke_state_eq] at hel ⊢
                try dsimp only at hel ⊢
                omega
        · -- clarification reply: no counter update
          try dsimp only
          refine ⟨by omega, fun heq => absurd heq (by omega), ?_, ?_⟩
          · simp only [hpr_pqc, invoke_state_eq]
            try dsimp only
            exact hp
          · simp only [hpr_elab_count, invoke_state_eq]
            try dsimp only
            exact he
    · -- pacing override: soft close initiated
      rw [pt_override_eq bot oracle r hsoft hover]
      rcases isc_state
        { bot with
          transcript_history := bot.transcript_history ++ [⟨"human", r⟩]
          memory := bot.memory ++ [⟨"human", r⟩] } oracle with ⟨h1, h2, h3, h4, h5, h6⟩
      rw [h1, h2, h3]
      try dsimp only
      exact ⟨by omega, fun heq => absurd heq (by omega), hp, he⟩

/-- `warning_count` never decreases across a turn (any state, any oracle). -/
theorem warn_monotone (bot : InterviewerBot) (oracle : Oracle) (r : String) :
    bot.warning_count ≤ (bot.process_turn oracle r).bot.warning_count := by
  cases hsoft : bot.is_in_soft_close with
  | true =>
    rw [pt_soft_eq bot oracle r hsoft]
    rcases csc_counts
      { bot with
        transcript_history := bot.transcript_history ++ [⟨"human", r⟩]
        memory := bot.memory ++ [⟨"human", r⟩] } oracle r with ⟨h1, h2, h3, h4⟩
    rw [h3]
  | false =>
    rcases Nat.lt_or_ge bot.primary_question_count MAX_PRIMARY_QUESTIONS with hover | hover
    · unfold InterviewerBot.process_turn
      dsimp only
      rw [if_neg (by simp [hsoft]), if_neg (by omega)]
      split <;> rename_i hfin2
      · try dsimp only
        simp only [hpr_warn, invoke_state_eq]
        try dsimp only
        split <;> omega
      · try dsimp only
        repeat' split
        all_goals
          simp only [hpr_warn, invoke_state_eq]
        all_goals
          split <;> omega
    · rw [pt_override_eq bot oracle r hsoft hover]
      rcases isc_state
        { bot with
          transcript_history := bot.transcript_history ++ [⟨"human", r⟩]
          memory := bot.memory ++ [⟨"human", r⟩] } oracle with ⟨h1, h2, h3, h4, h5, h6⟩
      rw [h3]

/-- Session states reachable under the discipline the api layer enforces:
a fresh session is created by `__init__` + `init_session`, and turns are
processed only while the session is unfinished. -/
inductive ReachableSession : InterviewerBot → Prop where
  | start (jd rc lvl name : String) :
      ReachableSession ((mk_interviewer jd rc lvl name).init_session).2
  | turn (bot : InterviewerBot) (oracle : Oracle) (reply : String) :
      ReachableSession bot → bot.is_finished = false →
      ReachableSession ((bot.process_turn oracle reply).bot)

/-! ## Concrete sessions and oracles used by counterexamples and witnesses -/

/-- A freshly created session (state right after `init_session`). -/
def sampleInit : InterviewerBot :=
  ((mk_interviewer "jd" "rc" "Senior" "Alice").init_session).2

/-- An oracle whose generation replies are the misconduct tag on calls 0, 2
and 3, with an ordinary re-asked question on call 1. -/
def warnOracle : Oracle := fun n =>
  match n with
  | 0 => .ok "PROTOCOL_WARNING_UNPROFESSIONAL"
  | 1 => .ok "Could you walk me through your last project?"
  | 2 => .ok "PROTOCOL_WARNING_UNPROFESSIONAL"
  | _ => .ok "PROTOCOL_WARNING_UNPROFESSIONAL"

def warnTurn1 : TurnResult := sampleInit.process_turn warnOracle "rude"

def warnTurn2 : TurnResult := warnTurn1.bot.process_turn warnOracle "rude again"

def warnTurn3 : TurnResult := warnTurn2.bot.process_turn warnOracle "still rude"

/-- Claim C6, counterexample to the claim as stated.  The claim quantifies
over states reachable by any sequence of `process_turn` calls, but
`process_turn` itself never checks `is_finished`: calling it again on the
session that the second misconduct tag just finished (`warnTurn2` here,
with `is_finished = true` and `warning_count = maxWarnings + 1 = 2`)
processes a third misconduct tag and drives `warning_count` to 3, breaking
the claimed bound `warningCount ≤ maxWarnings + 1`. -/
theorem c6_counterexample :
    warnTurn2.is_finished = true ∧
    warnTurn2.bot.warning_count = MAX_WARNINGS + 1 ∧
    warnTurn3.bot.warning_count = MAX_WARNINGS + 2 ∧
    ¬ warnTurn3.bot.warning_count ≤ MAX_WARNINGS + 1 := by
  decide

/-- Claim C6 (amended): for every session state reachable from a fresh
session by `process_turn` calls in which no call is made on an
already-finished session (the discipline the api layer enforces by deleting
finished sessions), `0 ≤ warningCount ≤ maxWarnings + 1` holds, reaching
`maxWarnings + 1` forces `isFinished = true`,
`0 ≤ primaryQuestionCount ≤ maxPrimaryQuestions` and
`0 ≤ elaborationCount ≤ maxElaborations` hold; moreover `warningCount`
never decreases across any `process_turn` call on any state whatsoever.
(The lower bounds are inherent to `Nat`.) -/
theorem c6_session_invariants :
    (∀ bot : InterviewerBot, ReachableSession bot →
      bot.warning_count ≤ MAX_WARNINGS + 1 ∧
      (bot.warning_count = MAX_WARNINGS + 1 → bot.is_finished = true) ∧
      bot.primary_question_count ≤ MAX_PRIMARY_QUESTIONS ∧
      bot.elaboration_count ≤ MAX_ELABORATIONS) ∧
    (∀ (bot : InterviewerBot) (oracle : Oracle) (r : String),
      bot.warning_count ≤ (bot.process_turn oracle r).bot.warning_count) := by
  constructor
  · intro bot h
    induction h with
    | start jd rc lvl name =>
      exact ⟨(by decide : (0 : Nat) ≤ MAX_WARNINGS + 1),
             fun heq => absurd heq (by decide : ¬ (0 : Nat) = MAX_WARNINGS + 1),
             (by decide : (0 : Nat) ≤ MAX_PRIMARY_QUESTIONS),
             (by decide : (0 : Nat) ≤ MAX_ELABORATIONS)⟩
    | turn bot oracle reply hre hfin ih =>
      obtain ⟨ihw, ihwf, ihp, ihe⟩ := ih
      exact step_preserves_invariant bot oracle reply hfin ihw ihwf ihp ihe
  · exact warn_monotone

/-- Claim C6, witness: the invariant theorem applied to a concrete
reachable state (a fresh session after one processed turn). -/
theorem c6_session_invariants_witness :
    warnTurn1.bot.warning_count ≤ MAX_WARNINGS + 1 ∧
    (warnTurn1.bot.warning_count = MAX_WARNINGS + 1 → warnTurn1.bot.is_finished = true) ∧
    warnTurn1.bot.primary_question_count ≤ MAX_PRIMARY_QUESTIONS ∧
    warnTurn1.bot.elaboration_count ≤ MAX_ELABORATIONS :=
  c6_session_invariants.1 warnTurn1.bot
    (ReachableSession.turn sampleInit warnOracle "rude"
      (ReachableSession.start "jd" "rc" "Senior" "Alice") (by decide))

/-- Complete case analysis of an ordinary (non-soft-close, non-overridden)
turn: either the protocol handling finished the session and the pacing
counters are untouched, or the final reply is a clarification reply and the
counters are untouched, or the counters advance according to the pacing
policy selected from the pre-turn counters. -/
theorem pt_ordinary_spec (bot : InterviewerBot) (oracle : Oracle) (r : String)
    (hsoft : bot.is_in_soft_close = false)
    (hover : bot.primary_question_count < MAX_PRIMARY_QUESTIONS) :
    ((bot.process_turn oracle r).bot.is_finished = true ∧
     (bot.process_turn oracle r).is_finished = true ∧
     (bot.process_turn oracle r).bot.primary_question_count = bot.primary_question_count ∧
     (bot.process_turn oracle r).bot.elaboration_count = bot.elaboration_count) ∨
    (REPETITION_PHRASES.any (fun p => pyStartsWith (bot.process_turn oracle r).reply p) = true ∧
     (bot.process_turn oracle r).bot.is_finished = false ∧
     (bot.process_turn oracle r).bot.primary_question_count = bot.primary_question_count ∧
     (bot.process_turn oracle r).bot.elaboration_count = bot.elaboration_count) ∨
    ((bot.process_turn oracle r).bot.is_finished = false ∧
     REPETITION_PHRASES.any (fun p => pyStartsWith (bot.process_turn oracle r).reply p) = false ∧
     ((bot.primary_question_count = 0 ∧
       (bot.process_turn oracle r).bot.primary_question_count = 1 ∧
       (bot.process_turn oracle r).bot.elaboration_count = bot.elaboration_count) ∨
      (bot.primary_question_count ≠ 0 ∧ bot.elaboration_count < MAX_ELABORATIONS ∧
       (bot.process_turn oracle r).bot.elaboration_count = bot.elaboration_count + 1 ∧
       (bot.process_turn oracle r).bot.primary_question_count = bot.primary_question_count) ∨
      (bot.primary_question_count ≠ 0 ∧ ¬ bot.elaboration_count < MAX_ELABORATIONS ∧
       (bot.process_turn oracle r).bot.primary_question_count = bot.primary_question_count + 1 ∧
       (bot.process_turn oracle r).bot.elaboration_count = 0))) := by
  unfold InterviewerBot.process_turn
  dsimp only
  rw [if_neg (by simp [hsoft]), if_neg (by omega)]
  split <;> rename_i hfin2
  · left
    refine ⟨hfin2, rfl, ?_, ?_⟩
    · simp only [hpr_pqc, invoke_state_eq]
    · simp only [hpr_elab_count, invoke_state_eq]
  · rw [Bool.not_eq_true] at hfin2
    split <;> rename_i hrep
    · rw [Bool.not_eq_true'] at hrep
      right; right
      split <;> rename_i hq0
      · simp only [hpr_pqc, invoke_state_eq] at hq0
        simp only [beq_iff_eq] at hq0
        refine ⟨hfin2, hrep, Or.inl ⟨hq0, rfl, ?_⟩⟩
        simp only [hpr_elab_count, invoke_state_eq]
      · simp only [hpr_pqc, invoke_state_eq] at hq0
        simp only [beq_iff_eq] at hq0
        split <;> rename_i hel
        · simp only [hpr_elab_count, invoke_state_eq] at hel
          try dsimp only at hel
          refine ⟨hfin2, hrep, Or.inr (Or.inr ⟨hq0, by omega, ?_, ?_⟩)⟩
          · simp only [hpr_pqc, invoke_state_eq]
          · rfl
        · simp only [hpr_elab_count, invoke_state_eq] at hel
          try dsimp only at hel
          refine ⟨hfin2, hrep, Or.inr (Or.inl ⟨hq0, by omega, ?_, ?_⟩)⟩
          · simp only [hpr_elab_count, invoke_state_eq]
          · simp only [hpr_pqc, invoke_state_eq]
    · rw [Bool.not_eq_true, Bool.not_eq_false'] at hrep
      right; left
      refine ⟨hrep, hfin2, ?_, ?_⟩
      · simp only [hpr_pqc, invoke_state_eq]
      · simp only [hpr_elab_count, invoke_state_eq]

/-- Claim C7: on every path of `process_turn` (soft close, pacing override,
ordinary turn, misconduct escalation, immediate termination), the candidate
reply is appended to the transcript with role `human` first, and everything
the turn adds afterwards is appended strictly after it: the new transcript
is the old transcript, then the `human` entry, then the turn's `ai` and
`PROTOCOL` entries — so existing entries are never mutated or reordered. -/
theorem c7_transcript_order (bot : InterviewerBot) (oracle : Oracle) (r : String) :
    ∃ rest, (bot.process_turn oracle r).bot.transcript_history =
      bot.transcript_history ++ (⟨"human", r⟩ :: rest) := by
  cases hsoft : bot.is_in_soft_close with
  | true =>
    rw [pt_soft_eq bot oracle r hsoft]
    obtain ⟨rest, hres⟩ := csc_transcript
      { bot with
        transcript_history := bot.transcript_history ++ [⟨"human", r⟩]
        memory := bot.memory ++ [⟨"human", r⟩] } oracle r
    rw [hres]
    try dsimp only
    exact ⟨rest, by simp⟩
  | false =>
    rcases Nat.lt_or_ge bot.primary_question_count MAX_PRIMARY_QUESTIONS with hover | hover
    · unfold InterviewerBot.process_turn
      try dsimp only
      rw [if_neg (by simp [hsoft]), if_neg (by omega)]
      generalize hb1 :
        ({ bot with
           transcript_history := bot.transcript_history ++ [⟨"human", r⟩]
           memory := bot.memory ++ [⟨"human", r⟩] } : InterviewerBot) = b1
      have hb1t : b1.transcript_history = bot.transcript_history ++ [⟨"human", r⟩] := by
        rw [← hb1]
      have h0 : (b1.invoke_llm_for_response oracle b1.action_guide_for).2.transcript_history =
          b1.transcript_history := by
        rw [invoke_state_eq]
      obtain ⟨r1, h1⟩ := hpr_transcript
        (b1.invoke_llm_for_response oracle b1.action_guide_for).2 oracle
        (b1.invoke_llm_for_response oracle b1.action_guide_for).1
      split <;> rename_i hfin2
      · try dsimp only
        rw [h1, h0, hb1t]
        exact ⟨r1, by simp⟩
      · try dsimp only
        split <;> rename_i hrep
        · split <;> rename_i hq0
          · try dsimp only
            rw [h1, h0, hb1t]
            exact ⟨r1, by simp⟩
          · split <;> rename_i hel
            · try dsimp only
              rw [h1, h0, hb1t]
              exact ⟨r1 ++ [⟨"PROTOCOL", PIVOT_TAG⟩], by simp⟩
            · try dsimp only
              rw [h1, h0, hb1t]
              exact ⟨r1, by simp⟩
        · try dsimp only
          rw [h1, h0, hb1t]
          exact ⟨r1, by simp⟩
    · rw [pt_override_eq bot oracle r hsoft hover]
      obtain ⟨rest, hres⟩ := isc_transcript
        { bot with
          transcript_history := bot.transcript_history ++ [⟨"human", r⟩]
          memory := bot.memory ++ [⟨"human", r⟩] } oracle
      rw [hres]
      try dsimp only
      exact ⟨rest, by simp⟩

/-- Claim C5: on every path of `process_turn`, if the final reply starts
with one of the fixed clarification preambles, then neither
`primary_question_count` nor `elaboration_count` changes across the turn. -/
theorem c5_clarification_preserves_counters (bot : InterviewerBot) (oracle : Oracle) (r : String)
    (hrep : REPETITION_PHRASES.any
      (fun p => pyStartsWith (bot.process_turn oracle r).reply p) = true) :
    (bot.process_turn oracle r).bot.primary_question_count = bot.primary_question_count ∧
    (bot.process_turn oracle r).bot.elaboration_count = bot.elaboration_count := by
  cases hsoft : bot.is_in_soft_close with
  | true =>
    rw [pt_soft_eq bot oracle r hsoft]
    rcases csc_counts
      { bot with
        transcript_history := bot.transcript_history ++ [⟨"human", r⟩]
        memory := bot.memory ++ [⟨"human", r⟩] } oracle r with ⟨h1, h2, h3, h4⟩
    rw [h1, h2]
    exact ⟨rfl, rfl⟩
  | false =>
    rcases Nat.lt_or_ge bot.primary_question_count MAX_PRIMARY_QUESTIONS with hover | hover
    · rcases pt_ordinary_spec bot oracle r hsoft hover with
        ⟨_, _, hpq, hel⟩ | ⟨_, _, hpq, hel⟩ | ⟨_, hrf, _⟩
      · exact ⟨hpq, hel⟩
      · exact ⟨hpq, hel⟩
      · rw [hrep] at hrf
        simp at hrf
    · rw [pt_override_eq bot oracle r hsoft hover]
      rcases isc_state
        { bot with
          transcript_history := bot.transcript_history ++ [⟨"human", r⟩]
          memory := bot.memory ++ [⟨"human", r⟩] } oracle with ⟨h1, h2, h3, h4, h5, h6⟩
      rw [h1, h2]
      exact ⟨rfl, rfl⟩

/-- An oracle that always replies with a clarification-preamble reply. -/
def repOracle : Oracle := fun _ =>
  .ok "To ensure clarity, I will repeat the question: what is polymorphism?"

/-- Claim C5, witness: a turn whose generated reply starts with the first
clarification preamble leaves both pacing counters unchanged. -/
theorem c5_clarification_preserves_counters_witness :
    (sampleInit.process_turn repOracle "please repeat").bot.primary_question_count =
      sampleInit.primary_question_count ∧
    (sampleInit.process_turn repOracle "please repeat").bot.elaboration_count =
      sampleInit.elaboration_count :=
  c5_clarification_preserves_counters sampleInit repOracle "please repeat" (by decide)

/-- Claim C4: on a non-soft-close, non-overridden turn the action guide is
selected exactly by the pacing policy — `first_topic_guide` if
`primary_question_count = 0`, `follow_up_guide` if
`elaboration_count < maxElaborations`, `pivot_new_topic_guide` otherwise —
and, when the final reply is not a clarification reply and the session did
not finish, the counters update as: FIRST_TOPIC sets
`primary_question_count` to 1, PIVOT increments it and resets
`elaboration_count` to 0, and otherwise `elaboration_count` increments. -/
theorem c4_pacing_policy (bot : InterviewerBot) (oracle : Oracle) (r : String)
    (hsoft : bot.is_in_soft_close = false)
    (hover : bot.primary_question_count < MAX_PRIMARY_QUESTIONS) :
    (bot.action_guide_for =
      if bot.primary_question_count = 0 then first_topic_guide
      else if bot.elaboration_count < MAX_ELABORATIONS then
        follow_up_guide (bot.elaboration_count + 1)
      else pivot_new_topic_guide (bot.primary_question_count + 1)) ∧
    ((bot.process_turn oracle r).bot.is_finished = false →
     REPETITION_PHRASES.any
       (fun p => pyStartsWith (bot.process_turn oracle r).reply p) = false →
     ((bot.primary_question_count = 0 →
        (bot.process_turn oracle r).bot.primary_question_count = 1 ∧
        (bot.process_turn oracle r).bot.elaboration_count = bot.elaboration_count) ∧
      (bot.primary_question_count ≠ 0 → bot.elaboration_count < MAX_ELABORATIONS →
        (bot.process_turn oracle r).bot.elaboration_count = bot.elaboration_count + 1 ∧
        (bot.process_turn oracle r).bot.primary_question_count = bot.primary_question_count) ∧
      (bot.primary_question_count ≠ 0 → ¬ bot.elaboration_count < MAX_ELABORATIONS →
        (bot.process_turn oracle r).bot.primary_question_count = bot.primary_question_count + 1 ∧
        (bot.process_turn oracle r).bot.elaboration_count = 0))) := by
  constructor
  · by_cases h0 : bot.primary_question_count = 0
    · simp [InterviewerBot.action_guide_for, h0]
    · by_cases h1 : bot.elaboration_count < MAX_ELABORATIONS
      · simp [InterviewerBot.action_guide_for, h0, h1]
      · simp [InterviewerBot.action_guide_for, h0, h1]
  · intro hfin hrep
    rcases pt_ordinary_spec bot oracle r hsoft hover with
      ⟨hf, _, _, _⟩ | ⟨hr, _, _, _⟩ | ⟨_, _, hupd⟩
    · rw [hfin] at hf
      simp at hf
    · rw [hrep] at hr
      simp at hr
    · refine ⟨fun h0 => ?_, fun h0 hlt => ?_, fun h0 hge => ?_⟩
      · rcases hupd with ⟨_, hp1, he1⟩ | ⟨hne, _, _, _⟩ | ⟨hne, _, _, _⟩
        · exact ⟨hp1, he1⟩
        · exact absurd h0 hne
        · exact absurd h0 hne
      · rcases hupd with ⟨hq0, _, _⟩ | ⟨_, _, he1, hp1⟩ | ⟨_, hge', _, _⟩
        · exact absurd hq0 h0
        · exact ⟨he1, hp1⟩
        · exact absurd hlt hge'
      · rcases hupd with ⟨hq0, _, _⟩ | ⟨_, hlt', _, _⟩ | ⟨_, _, hp1, he1⟩
        · exact absurd hq0 h0
        · exact absurd hlt' hge
        · exact ⟨hp1, he1⟩

/-- An oracle whose replies are ordinary technical questions. -/
def ordOracle : Oracle := fun _ =>
  .ok "Tell me about your experience with distributed systems."

/-- Claim C4, witness: the first processed turn of a fresh session takes
the FIRST_TOPIC branch and sets `primary_question_count` to 1. -/
theorem c4_pacing_policy_witness :
    (sampleInit.process_turn ordOracle "hi").bot.primary_question_count = 1 ∧
    (sampleInit.process_turn ordOracle "hi").bot.elaboration_count =
      sampleInit.elaboration_count :=
  ((c4_pacing_policy sampleInit ordOracle "hi" (by decide) (by decide)).2
    (by decide) (by decide)).1 (by decide)

theorem hpr_not_tag (bot : InterviewerBot) (oracle : Oracle) (t : String)
    (h : (t == WARNING_TAG) = false) :
    bot.handle_protocol_response oracle t = bot.handle_sentinel_or_plain t := by
  unfold InterviewerBot.handle_protocol_response
  rw [if_neg (by simp [h])]

/-- An oracle whose generation call always raises. -/
def errOracle : Oracle := fun _ => .error "connection timeout"

/-- Claim C1, counterexample to the claim as stated.  When the Text
Generation collaborator raises, `_invoke_llm_for_response` catches the
exception and returns an `[LLM_ERROR]` string, which the rest of the turn
treats as ordinary reply content: the error message is returned as the bot
reply, `is_finished` stays `false`, the session stays open, and the pacing
counter advances (`primary_question_count` goes from 0 to 1) — the turn
does not fail closed. -/
theorem c1_counterexample :
    (sampleInit.process_turn errOracle "hi").reply =
      "[LLM_ERROR] The AI model failed to respond: connection timeout" ∧
    (sampleInit.process_turn errOracle "hi").is_finished = false ∧
    (sampleInit.process_turn errOracle "hi").bot.is_finished = false ∧
    sampleInit.primary_question_count = 0 ∧
    (sampleInit.process_turn errOracle "hi").bot.primary_question_count = 1 := by
  decide

/-- Claim C1 (amended): if the Text Generation collaborator raises on an
ordinary turn, the exception is caught inside the invoke helper and the
string `"[LLM_ERROR] The AI model failed to respond: " ++ e` is returned
as the bot reply; provided that text does not contain the sentinel and does
not start with a clarification preamble (always true of real exception
messages), `isFinished` remains `false`, the session stays open, and the
pacing counters advance as for an ordinary (non-clarification) reply —
there is no fail-closed termination. -/
theorem c1_llm_error_is_ordinary_reply (bot : InterviewerBot) (oracle : Oracle) (r e : String)
    (hsoft : bot.is_in_soft_close = false)
    (hover : bot.primary_question_count < MAX_PRIMARY_QUESTIONS)
    (hfin : bot.is_finished = false)
    (ho : oracle bot.llm_calls = Except.error e)
    (hs : pyContains ("[LLM_ERROR] The AI model failed to respond: " ++ e)
      SENTINEL_END_PHRASE = false)
    (hr : REPETITION_PHRASES.any
      (fun p => pyStartsWith ("[LLM_ERROR] The AI model failed to respond: " ++ e) p) = false) :
    (bot.process_turn oracle r).reply =
      "[LLM_ERROR] The AI model failed to respond: " ++ e ∧
    (bot.process_turn oracle r).is_finished = false ∧
    (bot.process_turn oracle r).bot.is_finished = false ∧
    ¬ ((bot.process_turn oracle r).bot.primary_question_count = bot.primary_question_count ∧
       (bot.process_turn oracle r).bot.elaboration_count = bot.elaboration_count) := by
  have htag : (("[LLM_ERROR] The AI model failed to respond: " ++ e) == WARNING_TAG) = false := by
    simp only [beq_eq_false_iff_ne, ne_eq]
    intro h
    have hlen := congrArg String.length h
    rw [String.length_append] at hlen
    have h1 : ("[LLM_ERROR] The AI model failed to respond: " : String).length = 44 := by decide
    have h2 : WARNING_TAG.length = 31 := by decide
    omega
  unfold InterviewerBot.process_turn
  dsimp only
  rw [if_neg (by simp [hsoft]), if_neg (by omega)]
  unfold InterviewerBot.invoke_llm_for_response
  dsimp only
  rw [ho]
  dsimp only
  rw [hpr_not_tag _ oracle _ htag]
  rw [if_neg (by rw [hsp_fin]; dsimp only; rw [hfin, hs]; simp)]
  rw [hsp_reply, if_neg (by simp [hs])]
  try dsimp only
  rw [hr]
  rw [if_pos (by decide : (!false) = true)]
  split <;> rename_i hq0
  · simp only [hsp_pqc] at hq0
    try dsimp only at hq0
    simp only [beq_iff_eq] at hq0
    refine ⟨rfl, ?_, ?_, ?_⟩
    · dsimp only; rw [hsp_fin]; dsimp only; rw [hfin, hs]; simp
    · dsimp only; rw [hsp_fin]; dsimp only; rw [hfin, hs]; simp
    · intro ⟨ha, hb⟩
      try dsimp only at ha
      omega
  · split <;> rename_i hel
    · refine ⟨rfl, ?_, ?_, ?_⟩
      · dsimp only; rw [hsp_fin]; dsimp only; rw [hfin, hs]; simp
      · dsimp only; rw [hsp_fin]; dsimp only; rw [hfin, hs]; simp
      · intro ⟨ha, hb⟩
        simp only [hsp_pqc] at ha
        try dsimp only at ha
        omega
    · refine ⟨rfl, ?_, ?_, ?_⟩
      · dsimp only; rw [hsp_fin]; dsimp only; rw [hfin, hs]; simp
      · dsimp only; rw [hsp_fin]; dsimp only; rw [hfin, hs]; simp
      · intro ⟨ha, hb⟩
        simp only [hsp_elab_count] at hb
        try dsimp only at hb
        omega

/-- Claim C1 (amended), witness: the general theorem applied to a fresh
session whose first generation call raises. -/
theorem c1_llm_error_is_ordinary_reply_witness :
    (sampleInit.process_turn errOracle "hi").reply =
      "[LLM_ERROR] The AI model failed to respond: " ++ "connection timeout" ∧
    (sampleInit.process_turn errOracle "hi").is_finished = false ∧
    (sampleInit.process_turn errOracle "hi").bot.is_finished = false ∧
    ¬ ((sampleInit.process_turn errOracle "hi").bot.primary_question_count =
         sampleInit.primary_question_count ∧
       (sampleInit.process_turn errOracle "hi").bot.elaboration_count =
         sampleInit.elaboration_count) :=
  c1_llm_error_is_ordinary_reply sampleInit errOracle "hi" "connection timeout"
    (by decide) (by decide) (by decide) rfl (by decide) (by decide)

/-- The locally synthesized warning message of `_handle_protocol_response`. -/
def warning_message : String :=
  "I noticed your last response was unprofessional. Please maintain a professional demeanor. I'll re-ask the question."

/-- The termination message of `_handle_protocol_response`. -/
def termination_message : String :=
  "I appreciate your time, but given the lack of professional engagement, I must conclude this interview now."

/-- Claim C3: on a turn processed through the protocol interpreter (not in
soft close, not pacing-overridden) whose generated reply is exactly the
misconduct tag, `warning_count` increments by exactly 1; with
`maxWarnings = 1`, if this is the first offense (`warning_count = 0`) the
turn records the locally synthesized warning message, re-invokes the Text
Generation collaborator (call index `llm_calls + 1`) and returns that
restated question as the visible reply with `isFinished` still false; if it
is the second offense (`warning_count = maxWarnings`) the turn finishes
with the termination message and records the `PROTOCOL` termination marker
in the transcript. -/
theorem c3_misconduct_escalation (bot : InterviewerBot) (oracle : Oracle) (r t2 : String)
    (hsoft : bot.is_in_soft_close = false)
    (hover : bot.primary_question_count < MAX_PRIMARY_QUESTIONS)
    (hfin : bot.is_finished = false)
    (ho : oracle bot.llm_calls = Except.ok WARNING_TAG)
    (ho2 : oracle (bot.llm_calls + 1) = Except.ok t2)
    (hs2 : pyContains (pyStrip t2) SENTINEL_END_PHRASE = false) :
    (bot.process_turn oracle r).bot.warning_count = bot.warning_count + 1 ∧
    (bot.warning_count = 0 →
      (bot.process_turn oracle r).reply = pyStrip t2 ∧
      (bot.process_turn oracle r).is_finished = false ∧
      (bot.process_turn oracle r).bot.is_finished = false ∧
      ∃ rest, (bot.process_turn oracle r).bot.transcript_history =
        bot.transcript_history ++
          (⟨"human", r⟩ :: ⟨"PROTOCOL", WARNING_TAG⟩ ::
           ⟨"ai", warning_message⟩ :: ⟨"ai", pyStrip t2⟩ :: rest)) ∧
    (bot.warning_count = MAX_WARNINGS →
      (bot.process_turn oracle r).reply = termination_message ∧
      (bot.process_turn oracle r).is_finished = true ∧
      (bot.process_turn oracle r).bot.is_finished = true ∧
      (bot.process_turn oracle r).bot.transcript_history =
        bot.transcript_history ++
          [⟨"human", r⟩, ⟨"PROTOCOL", WARNING_TAG⟩, ⟨"PROTOCOL", TERMINATION_TAG⟩,
           ⟨"ai", termination_message⟩]) := by
  have hM : MAX_WARNINGS = 1 := rfl
  unfold InterviewerBot.process_turn
  dsimp only
  rw [if_neg (by simp [hsoft]), if_neg (by omega)]
  unfold InterviewerBot.invoke_llm_for_response
  dsimp only
  rw [ho]
  dsimp only
  rw [show pyStrip WARNING_TAG = WARNING_TAG from by decide]
  unfold InterviewerBot.handle_protocol_response
  dsimp only
  rw [if_pos (by decide : (WARNING_TAG == WARNING_TAG) = true)]
  try dsimp only
  split <;> rename_i hgt
  · -- second offense: termination
    try dsimp only
    rw [if_pos rfl]
    try dsimp only
    refine ⟨rfl, fun h0 => absurd hgt (by omega),
      fun h1 => ⟨by unfold termination_message; rfl, rfl, rfl, by simp [termination_message]⟩⟩
  · -- first offense: warning + re-ask
    try dsimp only
    unfold InterviewerBot.invoke_llm_for_response
    try dsimp only
    rw [ho2]
    try dsimp only
    unfold InterviewerBot.handle_sentinel_or_plain
    try dsimp only
    have hsent : ¬ (pyContains (pyStrip t2) SENTINEL_END_PHRASE = true) := by simp [hs2]
    rw [if_neg hsent]
    try dsimp only
    have hfin2 : ¬ (bot.is_finished = true) := by simp [hfin]
    rw [if_neg hfin2]
    try dsimp only
    split <;> rename_i hrep
    · split <;> rename_i hq0
      · refine ⟨rfl, fun h0 => ⟨rfl, hfin, hfin, ⟨[], by simp [warning_message]⟩⟩,
          fun h1 => absurd hgt (by omega)⟩
      · split <;> rename_i hel
        · refine ⟨rfl, fun h0 => ⟨rfl, hfin, hfin,
            ⟨[⟨"PROTOCOL", PIVOT_TAG⟩], by simp [warning_message]⟩⟩,
            fun h1 => absurd hgt (by omega)⟩
        · refine ⟨rfl, fun h0 => ⟨rfl, hfin, hfin, ⟨[], by simp [warning_message]⟩⟩,
            fun h1 => absurd hgt (by omega)⟩
    · refine ⟨rfl, fun h0 => ⟨rfl, hfin, hfin, ⟨[], by simp [warning_message]⟩⟩,
        fun h1 => absurd hgt (by omega)⟩

/-- Claim C3, witness: the escalation theorem applied to a fresh session
whose first generated reply is the misconduct tag. -/
theorem c3_misconduct_escalation_witness :
    (sampleInit.process_turn warnOracle "rude").bot.warning_count =
      sampleInit.warning_count + 1 ∧
    (sampleInit.process_turn warnOracle "rude").reply =
      pyStrip "Could you walk me through your last project?" ∧
    (sampleInit.process_turn warnOracle "rude").is_finished = false := by
  have h := c3_misconduct_escalation sampleInit warnOracle "rude"
    "Could you walk me through your last project?"
    (by decide) (by decide) (by decide) rfl rfl (by decide)
  exact ⟨h.1, (h.2.1 (by decide)).1, (h.2.1 (by decide)).2.1⟩

/-- An oracle driving a full interview: five primary questions with one
follow-up each, then a soft-close question that (incorrectly, from the
model side) already contains the sentinel phrase. -/
def softCloseOracle : Oracle := fun n =>
  match n with
  | 0 => .ok "Q1"
  | 1 => .ok "F1"
  | 2 => .ok "Q2"
  | 3 => .ok "F2"
  | 4 => .ok "Q3"
  | 5 => .ok "F3"
  | 6 => .ok "Q4"
  | 7 => .ok "F4"
  | 8 => .ok "Q5"
  | 9 => .ok "Thanks for your time! <<END_INTERVIEW>> Goodbye."
  | _ => .ok "ok"

/-- Ten processed turns of a fresh session under `softCloseOracle`: the
tenth turn takes the pacing-override branch and initiates the soft close. -/
def c2Run : TurnResult :=
  run_turns softCloseOracle (sampleInit.process_turn softCloseOracle "hi")
    ["a1", "a2", "a3", "a4", "a5", "a6", "a7", "a8", "a9"]

/-- An adversarial generation whose text splices into a new sentinel
occurrence after one replacement pass. -/
def spliceOracle : Oracle := fun _ => .ok "<<END_INTERV<<END_INTERVIEW>>IEW>>"

/-- Claim C2, counterexample to the claim as stated, in two parts.
(1) On the soft-close initiation path the generated text is returned to
the candidate verbatim with no sentinel handling at all: after ten turns
the soft-close question produced by the model contains `<<END_INTERVIEW>>`,
yet the reply keeps it and `isFinished` stays false.  (2) Even on a path
that does strip, `str.replace` makes a single non-overlapping pass, so a
spliced generation leaves one occurrence in the returned reply (here with
`isFinished = true`). -/
theorem c2_counterexample :
    (pyContains c2Run.reply SENTINEL_END_PHRASE = true ∧
     c2Run.is_finished = false ∧
     c2Run.bot.is_finished = false) ∧
    (pyContains (c2Run.bot.process_turn spliceOracle "no questions").reply
       SENTINEL_END_PHRASE = true ∧
     (c2Run.bot.process_turn spliceOracle "no questions").is_finished = true) := by
  decide

/-- Claim C2 (amended): the sentinel is handled only on the ordinary-turn
protocol path and on the soft-close continuation path: there, a generated
text containing the sentinel yields `isFinished = true` and the visible
reply is the text with its sentinel occurrences removed by one
left-to-right non-overlapping `replace` pass (then stripped).  On the
soft-close initiation path the generated text is returned verbatim and
`isFinished` stays false, whether or not it contains the sentinel. -/
theorem c2_sentinel_paths (bot : InterviewerBot) (oracle : Oracle) (r t : String)
    (ho : oracle bot.llm_calls = Except.ok t)
    (hs : pyContains (pyStrip t) SENTINEL_END_PHRASE = true) :
    (bot.is_in_soft_close = true →
      (bot.process_turn oracle r).is_finished = true ∧
      (bot.process_turn oracle r).bot.is_finished = true ∧
      (bot.process_turn oracle r).reply =
        pyStrip (pyReplace (pyStrip t) SENTINEL_END_PHRASE "")) ∧
    (bot.is_in_soft_close = false → bot.primary_question_count < MAX_PRIMARY_QUESTIONS →
      (bot.process_turn oracle r).is_finished = true ∧
      (bot.process_turn oracle r).bot.is_finished = true ∧
      (bot.process_turn oracle r).reply =
        pyStrip (pyReplace (pyStrip t) SENTINEL_END_PHRASE "")) ∧
    (bot.is_in_soft_close = false → bot.primary_question_count ≥ MAX_PRIMARY_QUESTIONS →
      (bot.process_turn oracle r).is_finished = false ∧
      (bot.process_turn oracle r).reply = pyStrip t) := by
  refine ⟨fun hsoft => ?_, fun hsoft hover => ?_, fun hsoft hover => ?_⟩
  · rw [pt_soft_eq bot oracle r hsoft]
    exact csc_sentinel _ oracle r t ho hs
  · have htag : (pyStrip t == WARNING_TAG) = false := by
      simp only [beq_eq_false_iff_ne, ne_eq]
      intro h
      rw [h] at hs
      exact absurd hs (by decide)
    unfold InterviewerBot.process_turn
    dsimp only
    rw [if_neg (by simp [hsoft]), if_neg (by omega)]
    unfold InterviewerBot.invoke_llm_for_response
    dsimp only
    rw [ho]
    dsimp only
    rw [hpr_not_tag _ oracle _ htag]
    unfold InterviewerBot.handle_sentinel_or_plain
    try dsimp only
    have hsent : pyContains (pyStrip t) SENTINEL_END_PHRASE = true := hs
    rw [if_pos hsent]
    try dsimp only
    rw [if_pos rfl]
    try dsimp only
    exact ⟨rfl, rfl, rfl⟩
  · rw [pt_override_eq bot oracle r hsoft hover]
    rcases isc_state
      { bot with
        transcript_history := bot.transcript_history ++ [⟨"human", r⟩]
        memory := bot.memory ++ [⟨"human", r⟩] } oracle with ⟨h1, h2, h3, h4, h5, h6⟩
    exact ⟨h6, isc_reply _ oracle t ho⟩

/-- An oracle that ends the soft close correctly, with the sentinel at the
end of the goodbye. -/
def goodbyeOracle : Oracle := fun _ => .ok "Thanks for joining us! <<END_INTERVIEW>>"

/-- Claim C2 (amended), witness: the theorem applied to the in-soft-close
state reached by `c2Run`, with a sentinel-carrying goodbye. -/
theorem c2_sentinel_paths_witness :
    (c2Run.bot.process_turn goodbyeOracle "no questions").is_finished = true ∧
    (c2Run.bot.process_turn goodbyeOracle "no questions").bot.is_finished = true ∧
    (c2Run.bot.process_turn goodbyeOracle "no questions").reply =
      pyStrip (pyReplace (pyStrip "Thanks for joining us! <<END_INTERVIEW>>")
        SENTINEL_END_PHRASE "") :=
  (c2_sentinel_paths c2Run.bot goodbyeOracle "no questions"
    "Thanks for joining us! <<END_INTERVIEW>>" rfl (by decide)).1 (by decide)

theorem lookup_erase (k : String) (m : SessionMap) :
    (eraseSession k m).lookup k = none := by
  induction m with
  | nil => rfl
  | cons p rest ih =>
    unfold eraseSession
    split <;> rename_i hk
    · exact ih
    · rw [Bool.not_eq_true] at hk
      have hk2 : (k == p.1) = false := by
        simp only [beq_eq_false_iff_ne, ne_eq] at hk ⊢
        exact fun h => hk h.symm
      simp [List.lookup, hk2, ih]

/-- Claim C8, counterexample to the claim as stated.  `process_turn`
itself never checks `is_finished`: invoked directly on the session that the
misconduct escalation just finished, it still processes the turn and
mutates the transcript (and here also the warning counter). -/
theorem c8_counterexample :
    warnTurn2.bot.is_finished = true ∧
    warnTurn3.bot.transcript_history ≠ warnTurn2.bot.transcript_history ∧
    warnTurn3.bot.warning_count ≠ warnTurn2.bot.warning_count := by
  decide

/-- Claim C8 (amended): termination of a session is enforced at the api
layer, not inside `process_turn`: when a chat turn returns
`isFinished = true`, `continue_interview` deletes the session from the
store, so its id no longer resolves and every subsequent `/interview/chat`
call for it fails with the session-not-found error before `process_turn`
can run — while a direct `process_turn` call on a finished state is not
rejected (see the counterexample). -/
theorem c8_finished_session_rejected (m : SessionMap) (sid r : String)
    (oracle : Oracle) (now : Nat) (bot : InterviewerBot)
    (hl : m.lookup sid = some bot)
    (hfin : (chat_interview_logic oracle now bot r).is_finished = true) :
    (continue_interview oracle now m sid r).2 = eraseSession sid m ∧
    ((continue_interview oracle now m sid r).2).lookup sid = none ∧
    ∀ (oracle2 : Oracle) (now2 : Nat) (r2 : String),
      continue_interview oracle2 now2 (continue_interview oracle now m sid r).2 sid r2 =
        (.error "Interview session not found or has expired.",
         (continue_interview oracle now m sid r).2) := by
  have hstep : continue_interview oracle now m sid r =
      (.ok ((chat_interview_logic oracle now bot r).ai_response,
            (chat_interview_logic oracle now bot r).is_finished,
            (chat_interview_logic oracle now bot r).final_context),
       eraseSession sid m) := by
    unfold continue_interview
    rw [hl]
    dsimp only
    rw [if_pos hfin]
  refine ⟨by rw [hstep], by rw [hstep]; exact lookup_erase sid m, fun oracle2 now2 r2 => ?_⟩
  rw [hstep]
  dsimp only
  unfold continue_interview
  rw [lookup_erase sid m]

/-- The api session store holding the single finished-in-soft-close
session of `c2Run`. -/
def c8SampleMap : SessionMap := [("s1", c2Run.bot)]

/-- Claim C8 (amended), witness: a finishing chat turn deletes the session
and the next call for the same id gets the 404 error. -/
theorem c8_finished_session_rejected_witness :
    ((continue_interview goodbyeOracle 0 c8SampleMap "s1" "bye").2).lookup "s1" = none ∧
    continue_interview ordOracle 1 (continue_interview goodbyeOracle 0 c8SampleMap "s1" "bye").2 "s1" "again" =
      (.error "Interview session not found or has expired.",
       (continue_interview goodbyeOracle 0 c8SampleMap "s1" "bye").2) := by
  have h := c8_finished_session_rejected c8SampleMap "s1" "bye" goodbyeOracle 0 c2Run.bot
    rfl (by decide)
  exact ⟨h.2.1, h.2.2 ordOracle 1 "again"⟩

/-- Claim C9, counterexample to the claim as stated.
`get_context_for_grading` performs no `is_finished` check and has no
rejection channel: invoked directly on a freshly started session
(`is_finished = false`, transcript holding only the opening greeting), it
silently returns a complete grading context built from that partial
transcript. -/
theorem c9_counterexample :
    sampleInit.is_finished = false ∧
    sampleInit.get_context_for_grading 0 =
      { timestamp := 0
        job_level := "Senior"
        candidate_name := "Alice"
        job_description := "jd"
        resume_content := "rc"
        transcript := sampleInit.transcript_history } := by
  decide

/-- Claim C9 (amended): the Transcript Assembler itself never rejects an
early call — it builds a context from whatever transcript exists — but
within the repository it is reached only through `chat_interview_logic`,
which invokes it exactly when the turn outcome has `isFinished = true`:
the returned grading context is `some` precisely on finished turns and
`none` otherwise. -/
theorem c9_grading_context_gate (now : Nat)
    (outcome : Except (String × InterviewerBot) TurnResult) :
    (chat_interview_logic_core now outcome).final_context =
      (if (chat_interview_logic_core now outcome).is_finished = true then
        some ((chat_interview_logic_core now outcome).bot.get_context_for_grading now)
      else none) := by
  unfold chat_interview_logic_core
  rcases outcome with ⟨e, b⟩ | t
  · rfl
  · cases t.is_finished <;> simp

/-- Claim C10: `chat_interview_logic` never propagates an exception: the
protected `process_turn` call's outcome is always converted into a reply
triple.  On the exceptional outcome the reply is the internal-failure
string and `isFinished` is forced true with a grading context attached;
in general the grading context is `some` exactly when `isFinished` is
true; and the normal path is exactly `process_turn` composed with this
conversion. -/
theorem c10_chat_never_raises :
    (∀ (now : Nat) (e : String) (b : InterviewerBot),
      (chat_interview_logic_core now (.error (e, b))).ai_response =
        "Internal chat processing failure: " ++ e ∧
      (chat_interview_logic_core now (.error (e, b))).is_finished = true ∧
      (chat_interview_logic_core now (.error (e, b))).final_context =
        some (b.get_context_for_grading now)) ∧
    (∀ (now : Nat) (outcome : Except (String × InterviewerBot) TurnResult),
      ((chat_interview_logic_core now outcome).final_context).isSome =
        (chat_interview_logic_core now outcome).is_finished) ∧
    (∀ (oracle : Oracle) (now : Nat) (b : InterviewerBot) (r : String),
      chat_interview_logic oracle now b r =
        chat_interview_logic_core now (.ok (b.process_turn oracle r))) := by
  refine ⟨fun now e b => ?_, fun now outcome => ?_, fun oracle now b r => rfl⟩
  · unfold chat_interview_logic_core
    dsimp only
    exact ⟨rfl, rfl, by simp⟩
  · unfold chat_interview_logic_core
    rcases outcome with ⟨e, b⟩ | t
    · rfl
    · cases ht : t.is_finished <;> simp [ht]
